import Mathlib

/-!
Verification of the Squire repository's view-collective registry
(`utils/viewcollectives.py`), token-verification mixins (`utils/tokens.py`)
and Nextcloud view error boundary (`nextcloud_integration/views.py`),
via a shallow embedding of the relevant Python code in Lean.
-/

/-! ## Definitions -/

/-- Embedding of `ViewCollectiveConfig`: the static metadata declared by a
config class.  `order_value` determines tab order (default 10 in the source);
`requires_login` / `requires_membership` drive the default `is_accessible`. -/
structure ViewCollectiveConfig where
  name : String
  icon_class : String
  url_name : String
  url_keyword : String
  order_value : Int
  requires_login : Bool
  requires_membership : Bool
  deriving DecidableEq, Repr

/-- The request data inspected by `ViewCollectiveConfig.is_accessible`:
`request.user.is_authenticated` and whether `request.member` is not None. -/
structure VCRequest where
  user_is_authenticated : Bool
  member_is_some : Bool
  deriving DecidableEq, Repr

/-- Embedding of the default `ViewCollectiveConfig.is_accessible` (lines
60-67): fail when login is required but the user is unauthenticated, fail
when membership is required but `request.member is None`, else succeed. -/
def ViewCollectiveConfig.is_accessible (c : ViewCollectiveConfig) (request : VCRequest) : Bool :=
  if c.requires_login && !request.user_is_authenticated then false
  else if c.requires_membership && !request.member_is_some then false
  else true

/-- Embedding of `ViewCollectiveRegistry.get_applicable_configs` (lines
170-181).  The Python loop appends each config whose `is_accessible`
predicate passes to an initially empty list.  Subclasses may override
`is_accessible` and use extra keyword arguments, so the predicate and the
extra-context type are parameters of the embedding. -/
def get_applicable_configs {Ctx : Type} (is_acc : ViewCollectiveConfig → VCRequest → Ctx → Bool)
    (configs : List ViewCollectiveConfig) (request : VCRequest) (other_kwargs : Ctx) :
    List ViewCollectiveConfig :=
  configs.foldl (fun applicable c =>
    if is_acc c request other_kwargs then applicable ++ [c] else applicable) []

/-- One entry of an imported discovery module's `__dict__` (lines 201-207):
the flags checked by the discovery loop and the result of instantiating
the class and asking it `is_enabled()`. -/
structure ModuleEntry where
  is_type : Bool
  is_config_subclass : Bool
  is_root_config_class : Bool
  instantiated : ViewCollectiveConfig
  enabled : Bool
  deriving DecidableEq, Repr

/-- Outcome of `import_module(f..., self.folder_name, .config)` for one
installed app (lines 196-199): the module may be missing
(`ModuleNotFoundError`, silently skipped), import successfully, or raise
any other exception. -/
inductive ImportOutcome where
  | moduleNotFound
  | imported (entries : List ModuleEntry)
  | raised (exn : String)
  deriving DecidableEq, Repr

/-- The inner discovery loop over `module.__dict__.items()` (lines 201-207):
keep every class that is a strict subclass of the root config class,
instantiate it, and append it if enabled. -/
def configs_from_module (entries : List ModuleEntry) : List ViewCollectiveConfig :=
  entries.foldl (fun configs e =>
    if e.is_type && e.is_config_subclass && !e.is_root_config_class && e.enabled
    then configs ++ [e.instantiated] else configs) []

/-- The outer discovery loop of `_get_configs` over all installed apps
(lines 195-207), before sorting: a missing module is skipped, a raised
exception propagates (aborting discovery), and the entries of each imported
module are collected in app order. -/
def discover_configs : List ImportOutcome → Except String (List ViewCollectiveConfig)
  | [] => .ok []
  | .moduleNotFound :: rest => discover_configs rest
  | .raised exn :: _ => .error exn
  | .imported entries :: rest =>
    match discover_configs rest with
    | .error exn => .error exn
    | .ok configs => .ok (configs_from_module entries ++ configs)

/-- The sort relation of line 208: `key=lambda config: config.order_value`. -/
def byOrderValue (a b : ViewCollectiveConfig) : Prop :=
  a.order_value ≤ b.order_value

instance : DecidableRel byOrderValue := fun a b => by
  unfold byOrderValue; infer_instance

instance : IsTotal ViewCollectiveConfig byOrderValue :=
  ⟨fun a b => le_total a.order_value b.order_value⟩

instance : IsTrans ViewCollectiveConfig byOrderValue :=
  ⟨fun _ _ _ hab hbc => le_trans hab hbc⟩

/-- Embedding of `ViewCollectiveRegistry._get_configs` (lines 190-208):
discovery followed by Python's `sorted(configs, key=lambda c:
c.order_value)`.  Python's `sorted` is a stable sort; `List.insertionSort`
with the non-strict key comparison is stable in the same sense (equal keys
keep their input order), so it is extensionally the same function. -/
def registry_get_configs (app_imports : List ImportOutcome) :
    Except String (List ViewCollectiveConfig) :=
  (discover_configs app_imports).map (fun configs => configs.insertionSort byOrderValue)

/-- Two concrete configs for the ordering scenario: discovery order has the
priority-10 config first, the registry must return the priority-5 config
first. -/
def demo_config (nm : String) (v : Int) : ViewCollectiveConfig :=
  { name := nm, icon_class := "", url_name := nm, url_keyword := nm,
    order_value := v, requires_login := true, requires_membership := true }

/-- A discovery-module entry wrapping a concrete config, all flags passing. -/
def demo_entry (c : ViewCollectiveConfig) : ModuleEntry :=
  { is_type := true, is_config_subclass := true, is_root_config_class := false,
    instantiated := c, enabled := true }

/-- Python's `config or self.config` (line 95): the keyword argument wins
when it is not None (config instances are always truthy), otherwise the
class attribute is used. -/
def config_or_class (arg_config class_config : Option ViewCollectiveConfig) :
    Option ViewCollectiveConfig :=
  match arg_config with
  | some c => some c
  | none => class_config

/-- Embedding of `ViewCollectiveViewMixin.__init__` (lines 94-100), run when
the view instance is constructed (i.e. before any request is dispatched):
resolve the config from the constructor keyword argument or the class
attribute, and raise `KeyError` when neither supplies one. -/
def viewCollectiveViewMixin_init (class_config : Option ViewCollectiveConfig)
    (arg_config : Option ViewCollectiveConfig) : Except String ViewCollectiveConfig :=
  match config_or_class arg_config class_config with
  | none => .error "KeyError: does not have a config linked"
  | some c => .ok c

/-- The exceptions caught by `get_url_object` (line 46): `TypeError`,
`ValueError`, `OverflowError`, `DoesNotExist`, `ValidationError`. -/
inductive UrlObjectError where
  | typeOrValueError
  | overflowError
  | doesNotExist
  | validationError
  deriving DecidableEq, Repr

/-- Value of one base64url alphabet character (A-Z, a-z, 0-9, '-', '_'). -/
def b64_char_val (c : Char) : Option Nat :=
  if 'A' ≤ c ∧ c ≤ 'Z' then some (c.toNat - 65)
  else if 'a' ≤ c ∧ c ≤ 'z' then some (c.toNat - 97 + 26)
  else if '0' ≤ c ∧ c ≤ '9' then some (c.toNat - 48 + 52)
  else if c = '-' then some 62
  else if c = '_' then some 63
  else none

/-- Turns the 6-bit groups of a base64 string back into bytes; a trailing
group of one sextet means invalid padding (a `ValueError`). -/
def sextets_to_bytes : List Nat → Except UrlObjectError (List Nat)
  | [] => .ok []
  | [_] => .error .typeOrValueError
  | [a, b] => .ok [a * 4 + b / 16]
  | [a, b, c] => .ok [a * 4 + b / 16, (b % 16) * 16 + c / 4]
  | a :: b :: c :: d :: rest =>
    match sextets_to_bytes rest with
    | .error e => .error e
    | .ok tail => .ok ((a * 4 + b / 16) :: ((b % 16) * 16 + c / 4) :: ((c % 4) * 64 + d) :: tail)

/-- Embedding of Django's `urlsafe_base64_decode` (line 44): decode the
base64url string to a byte string, failing (with a `ValueError`) on
characters outside the alphabet or invalid padding. -/
def urlsafe_base64_decode (s : String) : Except UrlObjectError (List Nat) :=
  match s.toList.mapM b64_char_val with
  | none => .error .typeOrValueError
  | some sextets => sextets_to_bytes sextets

/-- The `.decode()` call of line 44: bytes to text.  Bytes above 127 are
rejected (a `UnicodeDecodeError`, i.e. a `ValueError`); the embedding
restricts itself to ASCII payloads, which covers every encoded integer
primary key. -/
def bytes_decode : List Nat → Except UrlObjectError String
  | [] => .ok ""
  | b :: rest =>
    if b < 128 then
      match bytes_decode rest with
      | .error e => .error e
      | .ok s => .ok (String.mk (Char.ofNat b :: s.toList))
    else .error .typeOrValueError

/-- Decimal digit value of a character, or `none`. -/
def digit_val (c : Char) : Option Nat :=
  if '0' ≤ c ∧ c ≤ '9' then some (c.toNat - 48) else none

/-- Parses a non-empty all-digit character list as a decimal number. -/
def parse_nat_digits : List Char → Nat → Option Nat
  | [], acc => some acc
  | c :: rest, acc =>
    match digit_val c with
    | some d => parse_nat_digits rest (acc * 10 + d)
    | none => none

/-- Conversion of the decoded text to an integer primary key, as performed
by the model field when `get(pk=uid)` runs: a non-numeric string raises a
`ValidationError`. -/
def pk_from_text (s : String) : Except UrlObjectError Nat :=
  match s.toList with
  | [] => .error .validationError
  | cs =>
    match parse_nat_digits cs 0 with
    | some n => .ok n
    | none => .error .validationError

/-- An object validated by the token mixins.  `token_stamp` abstracts the
validity-affecting fields that the token generator hashes into the token:
two states of the object agree on `token_stamp` exactly when no
invalidating field changed. -/
structure TokenObject where
  pk : Nat
  token_stamp : Nat
  deriving DecidableEq, Repr

/-- The `_default_manager.get(pk=uid)` lookup of line 45: the record with
the given primary key, or a `DoesNotExist` error. -/
def manager_get (db : List TokenObject) (uid : Nat) : Except UrlObjectError TokenObject :=
  match db.find? (fun o => o.pk == uid) with
  | some o => .ok o
  | none => .error .doesNotExist

/-- The full decode-and-lookup pipeline inside the `try` block of
`get_url_object` (lines 42-45). -/
def url_object_pipeline (db : List TokenObject) (uidb64 : String) :
    Except UrlObjectError TokenObject :=
  match urlsafe_base64_decode uidb64 with
  | .error e => .error e
  | .ok bytes =>
    match bytes_decode bytes with
    | .error e => .error e
    | .ok text =>
      match pk_from_text text with
      | .error e => .error e
      | .ok uid => manager_get db uid

/-- Embedding of `TokenMixinBase.get_url_object` (lines 36-48): every
failure of the pipeline (bad encoding, overflow, nonexistent row,
validation error) is caught and folded into `None`. -/
def get_url_object (db : List TokenObject) (uidb64 : String) : Option TokenObject :=
  match url_object_pipeline db uidb64 with
  | .ok o => some o
  | .error _ => none

/-- The decoded primary key alone (no database access), for stating what
`get_url_object` returns. -/
def decoded_pk (uidb64 : String) : Except UrlObjectError Nat :=
  match urlsafe_base64_decode uidb64 with
  | .error e => .error e
  | .ok bytes =>
    match bytes_decode bytes with
    | .error e => .error e
    | .ok text => pk_from_text text

/-- A token as it occurs in the URL or the session.  `gen s` is a token the
configured generator produced over validity-affecting fields `s`;
`placeholder` is the sentinel `url_token_name` that replaces the real token
in the URL. -/
inductive UrlToken where
  | placeholder
  | gen (stamp : Nat)
  deriving DecidableEq, Repr

/-- Modelled from the spec: Django's `PasswordResetTokenGenerator` (the
`token_generator` object, not part of this repository) produces a token
hashing the object's validity-affecting fields; `check_token` accepts a
token exactly when it was generated over the object's current fields, and
rejects a missing token.  The sentinel placeholder is never a generated
token. -/
def check_token (o : TokenObject) (token : Option UrlToken) : Bool :=
  match token with
  | some (.gen s) => s == o.token_stamp
  | _ => false

/-- Modelled from the spec: the generator's `make_token` for an object in
its current state. -/
def make_token (o : TokenObject) : UrlToken :=
  .gen o.token_stamp

/-- The value of `fail_template_name` in `TokenMixinBase` (line 30). -/
def fail_template_name : String := "fail_template_name: TokenMixin fail placeholder"

/-- A response out of a token-mixin view: the rendered failure template,
the redirect issued after storing a URL token in the session, or the
wrapped view's own dispatch (which sees `self.validlink` and
`self.url_object`). -/
inductive TokenResponse where
  | fail_render (template : String)
  | redirect (path : List UrlToken)
  | wrapped (validlink : Bool) (url_object : Option TokenObject)
  deriving DecidableEq, Repr

/-- Embedding of `TokenMixinBase.dispatch` (lines 54-58): render the failure
template when the link is invalid, otherwise let the wrapped view's
dispatch run. -/
def tokenMixinBase_dispatch (validlink : Bool) (url_object : Option TokenObject) :
    TokenResponse :=
  if validlink then .wrapped validlink url_object
  else .fail_render fail_template_name

/-- Everything observable about one dispatch of a token-mixin view: the
response, the session token afterwards, and the `validlink` /
`url_object` attributes set on the view. -/
structure TokenDispatchResult where
  response : TokenResponse
  session : Option UrlToken
  validlink : Bool
  url_object : Option TokenObject
  deriving DecidableEq, Repr

/-- Embedding of `UrlTokenMixin.dispatch` (lines 85-113).  Inputs: the
database, the session token under `session_token_name`, the request path
(as URL segments), and the two URL kwargs (`uidb64`, `token`). -/
def urlTokenMixin_dispatch (db : List TokenObject) (session : Option UrlToken)
    (path : List UrlToken) (uidb64 : String) (token : UrlToken) : TokenDispatchResult :=
  match get_url_object db uidb64 with
  | some o =>
    if token = .placeholder then
      if check_token o session then
        { response := tokenMixinBase_dispatch true (some o), session := session,
          validlink := true, url_object := some o }
      else
        { response := tokenMixinBase_dispatch false (some o), session := session,
          validlink := false, url_object := some o }
    else
      if check_token o (some token) then
        { response := .redirect (path.map (fun seg => if seg == token then .placeholder else seg)),
          session := some token, validlink := false, url_object := some o }
      else
        { response := tokenMixinBase_dispatch false (some o), session := session,
          validlink := false, url_object := some o }
  | none =>
    { response := tokenMixinBase_dispatch false none, session := session,
      validlink := false, url_object := none }

/-- Embedding of `SessionTokenMixin.dispatch` (lines 129-143): validate the
token already stored in the session against the resolved object. -/
def sessionTokenMixin_dispatch (db : List TokenObject) (session : Option UrlToken)
    (uidb64 : String) : TokenDispatchResult :=
  match get_url_object db uidb64 with
  | some o =>
    if check_token o session then
      { response := tokenMixinBase_dispatch true (some o), session := session,
        validlink := true, url_object := some o }
    else
      { response := tokenMixinBase_dispatch false (some o), session := session,
        validlink := false, url_object := some o }
  | none =>
    { response := tokenMixinBase_dispatch false none, session := session,
      validlink := false, url_object := none }

/-- Modelled from the spec: the `NCFolder` model (its module is not among
the verified sources); the fields are the ones the views use — the remote
folder path, the slug, the local path, and the `is_missing` repair flag —
plus the primary key. -/
structure NCFolder where
  id : Nat
  folder : String
  slug : String
  path : String
  is_missing : Bool
  deriving DecidableEq, Repr

/-- Modelled from the spec: the `NCFile` model (its module is not among the
verified sources); the fields are the ones the views use — the owning
folder, the remote file path, the display file name, the slug, and the
`is_missing` repair flag — plus the primary key. -/
structure NCFile where
  id : Nat
  folder : NCFolder
  file : String
  file_name : String
  slug : String
  is_missing : Bool
  deriving DecidableEq, Repr

/-- The exceptions caught by `NextcloudConnectionViewMixin.dispatch`
(lines 30-33): a `requests` `ConnectionError`, or an easywebdav
`OperationFailed` carrying the HTTP status code the remote returned. -/
inductive NCError where
  | connectionError
  | operationFailed (actual_code : Nat)
  deriving DecidableEq, Repr

/-- A response out of a Nextcloud-backed view: the wrapped view's normal
response, a `TemplateResponse` with an HTTP status, or a message-carrying
redirect to the folder view. -/
inductive NCResponse where
  | normal
  | template (name : String) (status : Nat)
  | redirect_with_message (folder_slug : String) (msg : String)
  deriving DecidableEq, Repr

/-- The `failed_connection_template` attribute (line 24). -/
def failed_connection_template : String := "nextcloud_integration/failed_nextcloud_link.html"

/-- Embedding of `nextcloud_connection_failed` (lines 35-42): a
`TemplateResponse` with status 424 (failed dependency). -/
def nextcloud_connection_failed : NCResponse :=
  .template failed_connection_template 424

/-- Embedding of the mixin's `nextcloud_operation_failed` (lines 44-46):
delegates to `nextcloud_connection_failed`. -/
def nextcloudConnectionViewMixin_operation_failed : NCResponse :=
  nextcloud_connection_failed

/-- Embedding of `NextcloudConnectionViewMixin.dispatch` (lines 27-33):
run the wrapped dispatch; on `ConnectionError` return
`nextcloud_connection_failed`, on `OperationFailed` return
`nextcloud_operation_failed`. -/
def nextcloudConnectionViewMixin_dispatch (inner : Except NCError NCResponse) : NCResponse :=
  match inner with
  | .ok r => r
  | .error .connectionError => nextcloud_connection_failed
  | .error (.operationFailed _) => nextcloudConnectionViewMixin_operation_failed

/-- The WebDAV client's `exists` call, over the set of paths the remote
reports as existing. -/
def client_exists (remote : List String) (p : String) : Bool :=
  remote.contains p

/-- Message shown when the folder is missing remotely (lines 187-188). -/
def folder_missing_msg : String :=
  "The folder could not be retrieved as it has been moved or renamed. It is unknown when it will be fixed as it needs to be addressed manually."

/-- Message shown when the file is missing remotely (lines 192-193). -/
def file_missing_msg : String :=
  "The file could not be retrieved as it has been moved or renamed. It is unknown when it will be fixed as it needs to be addressed manually."

/-- Fallback message (line 195). -/
def unexpected_msg : String :=
  "Something unexpected occurred. Please inform the UUPS is this keeps occuring."

/-- Modelled from the spec: Django's `save(update_fields=["is_missing"])`
on an `NCFolder` — only the `is_missing` column of the matching row is
written; every other stored field keeps its database value. -/
def folder_save_is_missing (folders : List NCFolder) (f : NCFolder) : List NCFolder :=
  folders.map (fun r => if r.id == f.id then { r with is_missing := f.is_missing } else r)

/-- Modelled from the spec: Django's `save(update_fields=["is_missing"])`
on an `NCFile`. -/
def file_save_is_missing (files : List NCFile) (f : NCFile) : List NCFile :=
  files.map (fun r => if r.id == f.id then { r with is_missing := f.is_missing } else r)

/-- The database rows and the remote state a `DownloadFileview` request
sees. -/
structure NCState where
  folders : List NCFolder
  files : List NCFile
  remote : List String
  deriving DecidableEq, Repr

/-- Result of handling a failure in `DownloadFileview`: the response plus
the database after any best-effort repair. -/
structure DownloadFailOutcome where
  response : NCResponse
  folders : List NCFolder
  files : List NCFile
  deriving DecidableEq, Repr

/-- Embedding of `DownloadFileview.nextcloud_operation_failed` (lines
180-203): when the remote reported 404, mark the folder (or else the file)
as missing — saving with only `is_missing` listed for update — and build a
human-readable message; always respond with a redirect to the folder view
carrying the message. -/
def downloadFileview_nextcloud_operation_failed (st : NCState) (file : NCFile)
    (actual_code : Nat) : DownloadFailOutcome :=
  if actual_code == 404 then
    if !client_exists st.remote file.folder.folder then
      { response := .redirect_with_message file.folder.slug folder_missing_msg,
        folders := folder_save_is_missing st.folders { file.folder with is_missing := true },
        files := st.files }
    else if !client_exists st.remote file.file then
      { response := .redirect_with_message file.folder.slug file_missing_msg,
        folders := st.folders,
        files := file_save_is_missing st.files { file with is_missing := true } }
    else
      { response := .redirect_with_message file.folder.slug unexpected_msg,
        folders := st.folders, files := st.files }
  else
    { response := .redirect_with_message file.folder.slug unexpected_msg,
      folders := st.folders, files := st.files }

/-- Embedding of `DownloadFileview`'s dispatch through
`NextcloudConnectionViewMixin` (the view overrides
`nextcloud_operation_failed`). -/
def downloadFileview_dispatch (st : NCState) (file : NCFile)
    (inner : Except NCError NCResponse) : DownloadFailOutcome :=
  match inner with
  | .ok r => { response := r, folders := st.folders, files := st.files }
  | .error .connectionError =>
    { response := nextcloud_connection_failed, folders := st.folders, files := st.files }
  | .error (.operationFailed c) => downloadFileview_nextcloud_operation_failed st file c

/-! ## Theorems -/

theorem foldl_append_filter {α : Type} (p : α → Bool) :
    ∀ (l acc : List α),
      l.foldl (fun a c => if p c then a ++ [c] else a) acc = acc ++ l.filter p
  | [], acc => by simp
  | x :: xs, acc => by
    by_cases h : p x
    · simp [List.foldl_cons, h, foldl_append_filter p xs (acc ++ [x]), List.filter_cons]
    · simp [List.foldl_cons, h, foldl_append_filter p xs acc, List.filter_cons]

/-- Helper: a list all of whose elements share one `order_value` is pairwise
related by `byOrderValue`. -/
theorem pairwise_of_const_order {k : Int} :
    ∀ {l : List ViewCollectiveConfig}, (∀ c ∈ l, c.order_value = k) → l.Pairwise byOrderValue
  | [], _ => List.Pairwise.nil
  | x :: xs, h => by
    refine List.Pairwise.cons (fun y hy => ?_) (pairwise_of_const_order (fun c hc => h c (by simp [hc])))
    have hx : x.order_value = k := h x (by simp)
    have hy' : y.order_value = k := h y (by simp [hy])
    unfold byOrderValue
    omega

/-- Helper: stability of the sort, stated through filters: for every key `k`,
the elements of priority `k` appear in the sorted output exactly as they
appeared in the input. -/
theorem insertionSort_filter_stable (l : List ViewCollectiveConfig) (k : Int) :
    (l.insertionSort byOrderValue).filter (fun c => c.order_value == k)
      = l.filter (fun c => c.order_value == k) := by
  set p : ViewCollectiveConfig → Bool := fun c => c.order_value == k with hp
  have hmem : ∀ c ∈ l.filter p, c.order_value = k := by
    intro c hc
    have := List.of_mem_filter hc
    simpa [hp] using this
  have hpw : (l.filter p).Pairwise byOrderValue :=
    pairwise_of_const_order hmem
  have hsub : List.Sublist (l.filter p) (l.insertionSort byOrderValue) :=
    List.sublist_insertionSort hpw (List.filter_sublist l)
  have hff : (l.filter p).filter p = l.filter p :=
    List.filter_eq_self.mpr (fun a ha => List.of_mem_filter ha)
  have hfs : List.Sublist (l.filter p) ((l.insertionSort byOrderValue).filter p) := by
    have := hsub.filter p
    rwa [hff] at this
  have hperm : ((l.insertionSort byOrderValue).filter p).Perm (l.filter p) :=
    (List.perm_insertionSort byOrderValue l).filter p
  exact (hfs.eq_of_length hperm.length_eq.symm).symm

/-- C2: the list built by `_get_configs` is sorted non-decreasingly by
`order_value`, configs of equal `order_value` keep their discovery order
(stability, stated via filters), and in the concrete scenario of two
discovered configs with `order_value` 10 and 5 (discovered in that order)
the registry returns the priority-5 config first. -/
theorem get_configs_sorted_and_stable (app_imports : List ImportOutcome)
    (discovered : List ViewCollectiveConfig)
    (h : discover_configs app_imports = .ok discovered) :
    (registry_get_configs app_imports = .ok (discovered.insertionSort byOrderValue)
      ∧ (discovered.insertionSort byOrderValue).Pairwise byOrderValue
      ∧ ∀ k : Int,
          ((discovered.insertionSort byOrderValue).filter (fun c => c.order_value == k)
            = discovered.filter (fun c => c.order_value == k)))
    ∧ registry_get_configs
        [.imported [demo_entry (demo_config "later" 10)],
         .imported [demo_entry (demo_config "early" 5)]]
        = .ok [demo_config "early" 5, demo_config "later" 10] := by
  refine ⟨⟨?_, ?_, ?_⟩, ?_⟩
  · simp [registry_get_configs, h, Except.map]
  · exact List.sorted_insertionSort byOrderValue discovered
  · exact fun k => insertionSort_filter_stable discovered k
  · rfl

/-- Witness for C2 at a concrete discovery outcome. -/
theorem get_configs_sorted_and_stable_witness :
    registry_get_configs [.imported [demo_entry (demo_config "later" 10)]]
      = .ok [demo_config "later" 10] := by
  have h := get_configs_sorted_and_stable
    [.imported [demo_entry (demo_config "later" 10)]]
    [demo_config "later" 10] (by rfl)
  exact h.1.1

/-- Helper: discovery succeeds exactly when no app import raised an
exception other than `ModuleNotFoundError`. -/
theorem discover_configs_ok_iff (l : List ImportOutcome) :
    (∃ cs, discover_configs l = .ok cs) ↔ ∀ exn : String, ImportOutcome.raised exn ∉ l := by
  induction l with
  | nil => simp [discover_configs]
  | cons hd tl ih =>
    cases hd with
    | moduleNotFound =>
      have heq : discover_configs (ImportOutcome.moduleNotFound :: tl) = discover_configs tl := rfl
      rw [heq, ih]
      constructor
      · intro h exn hmem
        rcases List.mem_cons.mp hmem with h1 | h2
        · exact ImportOutcome.noConfusion h1
        · exact h exn h2
      · intro h exn hmem
        exact h exn (List.mem_cons_of_mem _ hmem)
    | raised e =>
      refine iff_of_false ?_ ?_
      · rintro ⟨cs, hcs⟩
        simp [discover_configs] at hcs
      · intro h
        exact h e (List.mem_cons_self _ _)
    | imported entries =>
      cases hdc : discover_configs tl with
      | error e =>
        refine iff_of_false ?_ ?_
        · rintro ⟨cs, hcs⟩
          simp [discover_configs, hdc] at hcs
        · intro h
          have hno : ¬∃ cs, discover_configs tl = .ok cs := by simp [hdc]
          have hex := not_forall.mp (fun hall => hno (ih.mpr hall))
          rcases hex with ⟨exn, hexn⟩
          exact h exn (List.mem_cons_of_mem _ (not_not.mp hexn))
      | ok cs2 =>
        refine iff_of_true ⟨configs_from_module entries ++ cs2, by simp [discover_configs, hdc]⟩ ?_
        intro exn hmem
        rcases List.mem_cons.mp hmem with h1 | h2
        · exact ImportOutcome.noConfusion h1
        · exact (ih.mp ⟨cs2, hdc⟩) exn h2

/-- C7: discovery never aborts because of a missing per-app discovery
submodule (a `moduleNotFound` outcome is skipped and discovery of the
remaining apps proceeds unchanged), and `_get_configs` succeeds exactly
when no app's import raised a non-`ModuleNotFoundError` exception — any
such exception propagates out as an error. -/
theorem discovery_skip_and_propagate (app_imports : List ImportOutcome) :
    (∀ rest : List ImportOutcome,
        registry_get_configs (.moduleNotFound :: rest) = registry_get_configs rest)
    ∧ ((∃ cs, registry_get_configs app_imports = .ok cs)
        ↔ ∀ exn : String, .raised exn ∉ app_imports) := by
  constructor
  · intro rest
    rfl
  · rw [← discover_configs_ok_iff]
    unfold registry_get_configs
    cases discover_configs app_imports <;> simp [Except.map]

/-- C1: for every registry state, request and extra-filter context,
`get_applicable_configs` returns exactly the configs whose `is_accessible`
predicate is true for that request and context, preserving the relative
order of `configs` (i.e. it equals a filter of `configs`). -/
theorem get_applicable_configs_eq_filter {Ctx : Type}
    (is_acc : ViewCollectiveConfig → VCRequest → Ctx → Bool)
    (configs : List ViewCollectiveConfig) (request : VCRequest) (ctx : Ctx) :
    get_applicable_configs is_acc configs request ctx
      = configs.filter (fun c => is_acc c request ctx) := by
  unfold get_applicable_configs
  simpa using foldl_append_filter (fun c => is_acc c request ctx) configs []

/-- C8: constructing a `ViewCollectiveViewMixin` view raises a configuration
error exactly when no config is attached, neither passed at construction
nor set on the class; the error comes from `__init__`, i.e. at construction
time, before any request dispatch can happen.  When a config is present the
construction succeeds with that config (keyword argument taking priority). -/
theorem init_requires_config (class_config arg_config : Option ViewCollectiveConfig) :
    ((∃ e, viewCollectiveViewMixin_init class_config arg_config = .error e)
      ↔ (arg_config = none ∧ class_config = none))
    ∧ (∀ c, arg_config = some c →
        viewCollectiveViewMixin_init class_config arg_config = .ok c)
    ∧ (∀ c, arg_config = none → class_config = some c →
        viewCollectiveViewMixin_init class_config arg_config = .ok c) := by
  refine ⟨?_, ?_, ?_⟩
  · cases arg_config with
    | some c => simp [viewCollectiveViewMixin_init, config_or_class]
    | none =>
      cases class_config with
      | some c => simp [viewCollectiveViewMixin_init, config_or_class]
      | none => simp [viewCollectiveViewMixin_init, config_or_class]
  · intro c hc
    subst hc
    rfl
  · intro c ha hc
    subst ha; subst hc
    rfl

/-- C6: `get_url_object` never lets an error escape: for every input string
and database it either returns the record whose primary key equals the
base64-decoded input, or returns `none` — decode failures, nonexistent rows
and validation failures are all folded into "no object". -/
theorem get_url_object_total_and_correct (db : List TokenObject) (uidb64 : String) :
    (∃ o, get_url_object db uidb64 = some o ∧ o ∈ db ∧ decoded_pk uidb64 = .ok o.pk)
    ∨ get_url_object db uidb64 = none := by
  cases hb : urlsafe_base64_decode uidb64 with
  | error e => exact Or.inr (by simp [get_url_object, url_object_pipeline, hb])
  | ok bytes =>
    cases hd : bytes_decode bytes with
    | error e => exact Or.inr (by simp [get_url_object, url_object_pipeline, hb, hd])
    | ok text =>
      cases hp : pk_from_text text with
      | error e => exact Or.inr (by simp [get_url_object, url_object_pipeline, hb, hd, hp])
      | ok uid =>
        cases hm : db.find? (fun o => o.pk == uid) with
        | none =>
          exact Or.inr (by simp [get_url_object, url_object_pipeline, hb, hd, hp, manager_get, hm])
        | some o =>
          left
          refine ⟨o,
            by simp [get_url_object, url_object_pipeline, hb, hd, hp, manager_get, hm],
            List.mem_of_find?_eq_some hm, ?_⟩
          have hpk : o.pk = uid := by simpa using List.find?_some hm
          simp [decoded_pk, hb, hd, hp, hpk]

/-- C3: token round-trip.  If `uidb64` resolves to object `o`, then
submitting the generator's token for `o` once through `UrlTokenMixin` is
accepted (a redirect, not the failure template) and the token is stored in
the session; a later `SessionTokenMixin` validation from the session alone
still succeeds (as does the sentinel-URL validation) while the
validity-affecting fields are unchanged; and once the database holds a
changed object `o2` (same primary key, different validity-affecting
fields), validating the session-stored token fails. -/
theorem token_round_trip (db db2 : List TokenObject) (o o2 : TokenObject)
    (session0 : Option UrlToken) (path : List UrlToken) (uidb64 : String)
    (h1 : get_url_object db uidb64 = some o)
    (h2 : get_url_object db2 uidb64 = some o2)
    (_hpk : o2.pk = o.pk)
    (hchange : o2.token_stamp ≠ o.token_stamp) :
    (∃ p, (urlTokenMixin_dispatch db session0 path uidb64 (make_token o)).response = .redirect p)
    ∧ (urlTokenMixin_dispatch db session0 path uidb64 (make_token o)).session = some (make_token o)
    ∧ (sessionTokenMixin_dispatch db (some (make_token o)) uidb64).validlink = true
    ∧ (sessionTokenMixin_dispatch db (some (make_token o)) uidb64).response
        = .wrapped true (some o)
    ∧ (urlTokenMixin_dispatch db (some (make_token o)) path uidb64 .placeholder).validlink = true
    ∧ (sessionTokenMixin_dispatch db2 (some (make_token o)) uidb64).validlink = false
    ∧ (sessionTokenMixin_dispatch db2 (some (make_token o)) uidb64).response
        = .fail_render fail_template_name := by
  have hne : (o.token_stamp == o2.token_stamp) = false :=
    beq_eq_false_iff_ne.mpr (fun h => hchange h.symm)
  refine ⟨⟨path.map (fun seg => if seg == make_token o then .placeholder else seg), ?_⟩,
    ?_, ?_, ?_, ?_, ?_, ?_⟩ <;>
    simp [urlTokenMixin_dispatch, sessionTokenMixin_dispatch, h1, h2, make_token,
      check_token, tokenMixinBase_dispatch, hne]

/-- Witness for C3: primary key 1 encodes as "MQ"; the object's
validity-affecting fields change from 42 to 43. -/
theorem token_round_trip_witness :
    (∃ p, (urlTokenMixin_dispatch [⟨1, 42⟩] none [UrlToken.gen 42] "MQ"
        (make_token ⟨1, 42⟩)).response = .redirect p)
    ∧ (urlTokenMixin_dispatch [⟨1, 42⟩] none [UrlToken.gen 42] "MQ"
        (make_token ⟨1, 42⟩)).session = some (make_token ⟨1, 42⟩)
    ∧ (sessionTokenMixin_dispatch [⟨1, 42⟩] (some (make_token ⟨1, 42⟩)) "MQ").validlink = true
    ∧ (sessionTokenMixin_dispatch [⟨1, 42⟩] (some (make_token ⟨1, 42⟩)) "MQ").response
        = .wrapped true (some ⟨1, 42⟩)
    ∧ (urlTokenMixin_dispatch [⟨1, 42⟩] (some (make_token ⟨1, 42⟩)) [UrlToken.gen 42] "MQ"
        .placeholder).validlink = true
    ∧ (sessionTokenMixin_dispatch [⟨1, 43⟩] (some (make_token ⟨1, 42⟩)) "MQ").validlink = false
    ∧ (sessionTokenMixin_dispatch [⟨1, 43⟩] (some (make_token ⟨1, 42⟩)) "MQ").response
        = .fail_render fail_template_name :=
  token_round_trip [⟨1, 42⟩] [⟨1, 43⟩] ⟨1, 42⟩ ⟨1, 43⟩ none [UrlToken.gen 42] "MQ"
    (by rfl) (by rfl) rfl (by decide)

/-- C4: when the link is invalid — no object resolves from the URL, or the
URL-carried token (e.g. a tampered segment) fails validation, or the
session-stored token fails validation — `UrlTokenMixin.dispatch` renders
the failure template instead of the wrapped view; when the link is valid
the wrapped view's dispatch runs with the resolved object and the validity
flag set. -/
theorem token_invalid_renders_fail (db : List TokenObject) (session : Option UrlToken)
    (path : List UrlToken) (uidb64 : String) (token : UrlToken) :
    (get_url_object db uidb64 = none →
      (urlTokenMixin_dispatch db session path uidb64 token).response
        = .fail_render fail_template_name)
    ∧ (∀ o, get_url_object db uidb64 = some o → token = .placeholder →
        check_token o session = false →
        (urlTokenMixin_dispatch db session path uidb64 token).response
          = .fail_render fail_template_name)
    ∧ (∀ o, get_url_object db uidb64 = some o → token ≠ .placeholder →
        check_token o (some token) = false →
        (urlTokenMixin_dispatch db session path uidb64 token).response
          = .fail_render fail_template_name)
    ∧ (∀ o, get_url_object db uidb64 = some o → token = .placeholder →
        check_token o session = true →
        (urlTokenMixin_dispatch db session path uidb64 token).response = .wrapped true (some o)
          ∧ (urlTokenMixin_dispatch db session path uidb64 token).validlink = true) := by
  refine ⟨?_, ?_, ?_, ?_⟩
  · intro h
    simp [urlTokenMixin_dispatch, h, tokenMixinBase_dispatch]
  · intro o ho ht hc
    subst ht
    simp [urlTokenMixin_dispatch, ho, hc, tokenMixinBase_dispatch]
  · intro o ho ht hc
    simp [urlTokenMixin_dispatch, ho, ht, hc, tokenMixinBase_dispatch]
  · intro o ho ht hc
    subst ht
    simp [urlTokenMixin_dispatch, ho, hc, tokenMixinBase_dispatch]

/-- Witness for C4: the four outcomes at concrete inputs — empty database,
missing session token, tampered URL token, and a valid sentinel link. -/
theorem token_invalid_renders_fail_witness :
    (urlTokenMixin_dispatch [] none [] "MQ" (.gen 42)).response
        = .fail_render fail_template_name
    ∧ (urlTokenMixin_dispatch [⟨1, 42⟩] none [] "MQ" .placeholder).response
        = .fail_render fail_template_name
    ∧ (urlTokenMixin_dispatch [⟨1, 42⟩] none [] "MQ" (.gen 43)).response
        = .fail_render fail_template_name
    ∧ (urlTokenMixin_dispatch [⟨1, 42⟩] (some (.gen 42)) [] "MQ" .placeholder).response
        = .wrapped true (some ⟨1, 42⟩) :=
  ⟨(token_invalid_renders_fail [] none [] "MQ" (.gen 42)).1 (by rfl),
   (token_invalid_renders_fail [⟨1, 42⟩] none [] "MQ" .placeholder).2.1 ⟨1, 42⟩ (by rfl) rfl (by rfl),
   (token_invalid_renders_fail [⟨1, 42⟩] none [] "MQ" (.gen 43)).2.2.1 ⟨1, 42⟩ (by rfl) (by decide) (by rfl),
   ((token_invalid_renders_fail [⟨1, 42⟩] (some (.gen 42)) [] "MQ" .placeholder).2.2.2 ⟨1, 42⟩
      (by rfl) rfl (by rfl)).1⟩

/-- C5: a real URL token that validates against the resolved object is
stored in the session, and the response is a redirect to the same path with
the token segment replaced by the sentinel placeholder; the validity flag
stays false on this request. -/
theorem url_token_stored_and_redirected (db : List TokenObject) (o : TokenObject)
    (session : Option UrlToken) (path : List UrlToken) (uidb64 : String) (stamp : Nat)
    (h1 : get_url_object db uidb64 = some o)
    (h2 : check_token o (some (.gen stamp)) = true) :
    (urlTokenMixin_dispatch db session path uidb64 (.gen stamp)).response
      = .redirect (path.map (fun seg => if seg == UrlToken.gen stamp then .placeholder else seg))
    ∧ (urlTokenMixin_dispatch db session path uidb64 (.gen stamp)).session = some (.gen stamp)
    ∧ (urlTokenMixin_dispatch db session path uidb64 (.gen stamp)).validlink = false := by
  refine ⟨?_, ?_, ?_⟩ <;> simp [urlTokenMixin_dispatch, h1, h2]

/-- Witness for C5: the token segment of the path is rewritten to the
sentinel while the other segment is kept, and the session now holds the
token. -/
theorem url_token_stored_and_redirected_witness :
    (urlTokenMixin_dispatch [⟨1, 42⟩] none [UrlToken.gen 42, UrlToken.gen 7] "MQ"
        (.gen 42)).response
      = .redirect [UrlToken.placeholder, UrlToken.gen 7]
    ∧ (urlTokenMixin_dispatch [⟨1, 42⟩] none [UrlToken.gen 42, UrlToken.gen 7] "MQ"
        (.gen 42)).session = some (.gen 42)
    ∧ (urlTokenMixin_dispatch [⟨1, 42⟩] none [UrlToken.gen 42, UrlToken.gen 7] "MQ"
        (.gen 42)).validlink = false :=
  url_token_stored_and_redirected [⟨1, 42⟩] ⟨1, 42⟩ none [UrlToken.gen 42, UrlToken.gen 7]
    "MQ" 42 (by rfl) (by rfl)

/-- C9: a remote-storage failure raised during dispatch never propagates
out of a Nextcloud-backed view: the mixin converts every `ConnectionError`
or `OperationFailed` into the 424 failed-dependency template, and
`DownloadFileview` converts a `ConnectionError` into the 424 template and
every `OperationFailed` into a redirect carrying a human-readable message;
successful inner dispatches pass through untouched. -/
theorem nextcloud_failures_converted :
    (∀ e : NCError, nextcloudConnectionViewMixin_dispatch (.error e)
        = .template failed_connection_template 424)
    ∧ (∀ r : NCResponse, nextcloudConnectionViewMixin_dispatch (.ok r) = r)
    ∧ (∀ (st : NCState) (file : NCFile) (e : NCError),
        (downloadFileview_dispatch st file (.error e)).response
            = .template failed_connection_template 424
          ∨ ∃ msg, (downloadFileview_dispatch st file (.error e)).response
              = .redirect_with_message file.folder.slug msg)
    ∧ (∀ (st : NCState) (file : NCFile) (r : NCResponse),
        (downloadFileview_dispatch st file (.ok r)).response = r) := by
  refine ⟨?_, fun r => rfl, ?_, fun st file r => rfl⟩
  · intro e
    cases e <;> rfl
  · intro st file e
    cases e with
    | connectionError => exact Or.inl rfl
    | operationFailed c =>
      right
      have hred : downloadFileview_dispatch st file (.error (.operationFailed c))
          = downloadFileview_nextcloud_operation_failed st file c := rfl
      rw [hred]
      unfold downloadFileview_nextcloud_operation_failed
      by_cases h404 : (c == 404) = true
      · rw [if_pos h404]
        by_cases hf : (!client_exists st.remote file.folder.folder) = true
        · rw [if_pos hf]; exact ⟨folder_missing_msg, rfl⟩
        · rw [if_neg hf]
          by_cases hfile : (!client_exists st.remote file.file) = true
          · rw [if_pos hfile]; exact ⟨file_missing_msg, rfl⟩
          · rw [if_neg hfile]; exact ⟨unexpected_msg, rfl⟩
      · rw [if_neg h404]; exact ⟨unexpected_msg, rfl⟩

/-- C10: the best-effort repair in `DownloadFileview` saves with only the
`is_missing` field listed for update, so after the handler runs every
folder and file row agrees with its previous value on all fields other
than `is_missing` (shown by erasing `is_missing` on both sides), for every
state, file and reported status code. -/
theorem download_repair_only_touches_is_missing (st : NCState) (file : NCFile)
    (actual_code : Nat) :
    (downloadFileview_nextcloud_operation_failed st file actual_code).folders.map
        (fun r => { r with is_missing := false })
      = st.folders.map (fun r => { r with is_missing := false })
    ∧ (downloadFileview_nextcloud_operation_failed st file actual_code).files.map
        (fun r => { r with is_missing := false })
      = st.files.map (fun r => { r with is_missing := false }) := by
  unfold downloadFileview_nextcloud_operation_failed
  by_cases h404 : (actual_code == 404) = true
  · rw [if_pos h404]
    by_cases hf : (!client_exists st.remote file.folder.folder) = true
    · rw [if_pos hf]
      refine ⟨?_, rfl⟩
      unfold folder_save_is_missing
      rw [List.map_map]
      apply List.map_congr_left
      intro r _
      by_cases hid : (r.id == file.folder.id) = true
      · simp only [Function.comp, hid, if_pos]
      · simp only [Function.comp, hid, Bool.false_eq_true, if_neg, if_false]
    · rw [if_neg hf]
      by_cases hfile : (!client_exists st.remote file.file) = true
      · rw [if_pos hfile]
        refine ⟨rfl, ?_⟩
        unfold file_save_is_missing
        rw [List.map_map]
        apply List.map_congr_left
        intro r _
        by_cases hid : (r.id == file.id) = true
        · simp only [Function.comp, hid, if_pos]
        · simp only [Function.comp, hid, Bool.false_eq_true, if_neg, if_false]
      · rw [if_neg hfile]; exact ⟨rfl, rfl⟩
  · rw [if_neg h404]; exact ⟨rfl, rfl⟩

/-- Witness for C8: construction with no config anywhere errors; either
source of a config makes construction succeed with that config. -/
theorem init_requires_config_witness :
    (∃ e, viewCollectiveViewMixin_init none none = .error e)
    ∧ viewCollectiveViewMixin_init none (some (demo_config "a" 5)) = .ok (demo_config "a" 5)
    ∧ viewCollectiveViewMixin_init (some (demo_config "a" 5)) none = .ok (demo_config "a" 5) :=
  ⟨(init_requires_config none none).1.mpr ⟨rfl, rfl⟩,
   (init_requires_config none (some (demo_config "a" 5))).2.1 _ rfl,
   (init_requires_config (some (demo_config "a" 5)) none).2.2 _ rfl rfl⟩
